import Mathlib

/-!
Shallow embedding of `src/js/accordion.js` (the `Accordion` class): the
constructor's scan of the root's children, `_getConfig`, `_collapsePanel`,
`_expandPanel` and `togglePanel`.  DOM reads that do not influence control
flow (rendered heights, CSS transition durations) are supplied by an
environment; every style write, class change, attribute write, reflow,
event dispatch, timer wait and promise resolution is recorded in a trace so
that ordering claims can be stated.

The source pushes `_triggers` and `_panels` in lockstep and always indexes
them together, so the embedding stores one list of (trigger, panel) pairs
and projects the two arrays from it.  Reading a missing index yields
`undefined` in JS, and `_collapsePanel` / `_expandPanel` then throw a
`TypeError` at their first member access, before performing any action;
`new Promise` turns that throw into a rejection, the `await` in
`togglePanel` rethrows, and the `_active` / `_isTransitioning` writes at
the end of `togglePanel` are never executed while any already registered
timer still fires.  The embedding models the throw as `none` and that
outcome as the `stuck` phase.
-/

set_option maxRecDepth 8000

namespace Accordion

/-- Event names dispatched on the accordion root (`Events` in the source). -/
inductive EvName where
  | beforeCollapse
  | collapse
  | beforeExpand
  | expand
deriving DecidableEq, Repr

/-- One observable action performed by the accordion code, in program order. -/
inductive Act where
  | setAria (i : Nat) (v : Bool)
  | measureHeight (i : Nat) (px : Nat)
  | setHeightPx (i : Nat) (px : Nat)
  | setHeightZero (i : Nat)
  | clearHeight (i : Nat)
  | reflow (i : Nat)
  | readDuration (i : Nat) (ms : Nat)
  | addExpandedClass (i : Nat)
  | removeExpandedClass (i : Nat)
  | emit (e : EvName) (index : Nat)
  | timer (i : Nat) (ms : Nat)
  | resolve (i : Nat)
deriving DecidableEq, Repr

/-- A trigger element: `ariaExpanded` is `getAttribute('aria-expanded') === 'true'`,
`ariaDisabled` is `getAttribute('aria-disabled') === 'true'` (never written by the code). -/
structure Trigger where
  ariaExpanded : Bool
  ariaDisabled : Bool
deriving DecidableEq, Repr

/-- A panel element: `expandedClass` is membership of `accordion__panel_expanded`
in its class list; `styleHeight` is the inline `style.height` override
(`none` = `''`, `some n` = `n` px, with `some 0` for `'0'`). -/
structure Panel where
  expandedClass : Bool
  styleHeight : Option Nat
deriving DecidableEq, Repr

/-- The configuration computed by `_getConfig`. -/
structure Config where
  allowToggle : Bool
  allowMultiple : Bool
deriving DecidableEq, Repr

/-- The mutable state of one `Accordion` instance: `_config`, the lockstep
`_triggers` / `_panels` arrays (stored as one list of pairs), `_active`
(`-1` = none) and `_isTransitioning`. -/
structure AccState where
  config : Config
  pairs : List (Trigger × Panel)
  active : Int
  isTransitioning : Bool
deriving DecidableEq, Repr

/-- The `_triggers` array, projected from the lockstep pairs. -/
def AccState.triggers (s : AccState) : List Trigger := s.pairs.map Prod.fst

/-- The `_panels` array, projected from the lockstep pairs. -/
def AccState.panels (s : AccState) : List Panel := s.pairs.map Prod.snd

/-- Environment-supplied DOM measurements: `renderedHeight i` is what
`panels[i].getBoundingClientRect().height` returns, `transitionMs i` is
`getTransitionDuration(panels[i])`.  Neither influences control flow. -/
structure Env where
  renderedHeight : Nat → Nat
  transitionMs : Nat → Nat

/-- The options object passed to the constructor (boolean fields). -/
structure AccOptions where
  allowToggle : Bool
  allowMultiple : Bool
deriving DecidableEq, Repr

/-- Truthiness of `root.dataset.allowToggle` / `root.dataset.allowMultiple`. -/
structure AccDataset where
  allowToggle : Bool
  allowMultiple : Bool
deriving DecidableEq, Repr

/-- `_getConfig`: `allowToggle = options.allowToggle || !!dataset.allowToggle`;
`allowMultiple = allowToggle && (options.allowMultiple || !!dataset.allowMultiple)`. -/
def getConfig (options : AccOptions) (dataset : AccDataset) : Config :=
  let allowToggle := options.allowToggle || dataset.allowToggle
  let allowMultiple := allowToggle && (options.allowMultiple || dataset.allowMultiple)
  { allowToggle := allowToggle, allowMultiple := allowMultiple }

/-- Apply `f` to the element at index `i`, if present (JS array element mutation). -/
def listUpdate {α : Type} (l : List α) (i : Nat) (f : α → α) : List α :=
  match l[i]? with
  | some a => l.set i (f a)
  | none => l

/-- Write the trigger's `aria-expanded` attribute at index `i`. -/
def writeAria (s : AccState) (i : Nat) (v : Bool) : AccState :=
  { s with pairs :=
      listUpdate s.pairs i (fun pr => ({ pr.1 with ariaExpanded := v }, pr.2)) }

/-- Add / remove the panel's `accordion__panel_expanded` class at index `i`. -/
def writeExpandedClass (s : AccState) (i : Nat) (v : Bool) : AccState :=
  { s with pairs :=
      listUpdate s.pairs i (fun pr => (pr.1, { pr.2 with expandedClass := v })) }

/-- Write the panel's inline `style.height` at index `i`. -/
def writeStyleHeight (s : AccState) (i : Nat) (v : Option Nat) : AccState :=
  { s with pairs :=
      listUpdate s.pairs i (fun pr => (pr.1, { pr.2 with styleHeight := v })) }

/-- State effects of the synchronous part of `_collapsePanel(i)`, given the
trigger and panel at `i` exist. -/
def collapseEff (env : Env) (s : AccState) (i : Nat) : AccState :=
  writeStyleHeight
    (writeStyleHeight (writeAria s i false) i (some (env.renderedHeight i)))
    i (some 0)

/-- Trace of the synchronous part of `_collapsePanel(i)`. -/
def collapseTrace (env : Env) (i : Nat) : List Act :=
  [Act.setAria i false, Act.measureHeight i (env.renderedHeight i),
    Act.setHeightPx i (env.renderedHeight i), Act.reflow i,
    Act.readDuration i (env.transitionMs i), Act.setHeightZero i,
    Act.emit EvName.beforeCollapse i]

/-- Synchronous executor of `_collapsePanel(i)` (the promise body up to
`setTimeout`).  When the element at `i` is missing (`_triggers[i]` is
`undefined`), `trigger.setAttribute` (line 185) throws before any action is
performed and `new Promise` converts the throw into a rejected promise:
modeled as `none`. -/
def collapseStart (env : Env) (s : AccState) (i : Nat) : Option (AccState × List Act) :=
  match s.pairs[i]? with
  | none => none
  | some _ => some (collapseEff env s i, collapseTrace env i)

/-- The `setTimeout` callback of `_collapsePanel(i)` (after `transitionMs i`);
it uses the elements captured by the executor, so it cannot throw. -/
def collapseDone (env : Env) (s : AccState) (i : Nat) : AccState × List Act :=
  (writeExpandedClass (writeStyleHeight s i none) i false,
    [Act.timer i (env.transitionMs i), Act.clearHeight i, Act.removeExpandedClass i,
      Act.emit EvName.collapse i, Act.resolve i])

/-- State effects of the synchronous part of `_expandPanel(i)`, given the
trigger and panel at `i` exist. -/
def expandEff (env : Env) (s : AccState) (i : Nat) : AccState :=
  writeStyleHeight
    (writeStyleHeight (writeExpandedClass (writeAria s i true) i true) i (some 0))
    i (some (env.renderedHeight i))

/-- Trace of the synchronous part of `_expandPanel(i)`. -/
def expandTrace (env : Env) (i : Nat) : List Act :=
  [Act.setAria i true, Act.addExpandedClass i,
    Act.measureHeight i (env.renderedHeight i), Act.setHeightZero i, Act.reflow i,
    Act.readDuration i (env.transitionMs i),
    Act.setHeightPx i (env.renderedHeight i), Act.emit EvName.beforeExpand i]

/-- Synchronous executor of `_expandPanel(i)` (the promise body up to
`setTimeout`).  `none` models the `TypeError` at `trigger.setAttribute`
(line 218) when the element at `i` is missing: nothing is written and the
promise rejects. -/
def expandStart (env : Env) (s : AccState) (i : Nat) : Option (AccState × List Act) :=
  match s.pairs[i]? with
  | none => none
  | some _ => some (expandEff env s i, expandTrace env i)

/-- The `setTimeout` callback of `_expandPanel(i)` (after `transitionMs i`). -/
def expandDone (env : Env) (s : AccState) (i : Nat) : AccState × List Act :=
  (writeStyleHeight s i none,
    [Act.timer i (env.transitionMs i), Act.clearHeight i,
      Act.emit EvName.expand i, Act.resolve i])

/-- A timer registered by a transition executor whose `togglePanel` caller has
already rejected: the callback still fires after its delay. -/
inductive Pending where
  | collapseTimer (i : Nat)
  | expandTimer (i : Nat)
deriving DecidableEq, Repr

/-- Fire the still-registered timer callbacks, in order. -/
def runPending (env : Env) : AccState → List Pending → AccState × List Act
  | s, [] => (s, [])
  | s, Pending.collapseTimer i :: rest =>
    ((runPending env (collapseDone env s i).1 rest).1,
      (collapseDone env s i).2 ++ (runPending env (collapseDone env s i).1 rest).2)
  | s, Pending.expandTimer i :: rest =>
    ((runPending env (expandDone env s i).1 rest).1,
      (expandDone env s i).2 ++ (runPending env (expandDone env s i).1 rest).2)

/-- What remains after the synchronous part of an accepted `togglePanel`:
the normal pending completion(s), or — when a transition executor threw —
`stuck`: the surviving timers still fire, but the `await` in `togglePanel`
has rethrown, so the `_active` update and the release of `_isTransitioning`
are never executed. -/
inductive Phase where
  | collapsing (i : Nat)
  | expanding (i : Nat)
  | swapping (j i : Nat)
  | stuck (rest : List Pending)
deriving DecidableEq, Repr

/-- `togglePanel(i)` up to its first suspension point: the guard chain, the
`_isTransitioning = true` write, and the promise executors started in the
same tick.  Returns `none` as phase when the request is rejected.  In the
exclusive-swap branch `_collapsePanel(this._active)` is started first; when
`_active` is out of the arrays (`_triggers[_active]` is `undefined`, also for
a negative `_active`), that executor throws, its promise rejects, the expand
executor still runs, `Promise.all` rejects, and `togglePanel` never reaches
its `_active` / `_isTransitioning` writes: only the expand timer remains. -/
def toggleStart (env : Env) (s : AccState) (i : Int) : AccState × List Act × Option Phase :=
  if i < 0 ∨ (s.panels.length : Int) ≤ i then (s, [], none)
  else if s.isTransitioning then (s, [], none)
  else if s.config.allowToggle = false ∧ s.active = i then (s, [], none)
  else
    let n := i.toNat
    match s.pairs[n]? with
    | none => (s, [], none)
    | some pr =>
      let isExpanded := pr.1.ariaExpanded
      let isDisabled := pr.1.ariaDisabled
      if isExpanded && isDisabled then (s, [], none)
      else
        let s1 := { s with isTransitioning := true }
        if s.config.allowToggle then
          if isExpanded then
            match collapseStart env s1 n with
            | some st => (st.1, st.2, some (Phase.collapsing n))
            | none => (s1, [], some (Phase.stuck []))
          else
            match expandStart env s1 n with
            | some st => (st.1, st.2, some (Phase.expanding n))
            | none => (s1, [], some (Phase.stuck []))
        else
          match (if s.active < 0 then none else collapseStart env s1 s.active.toNat) with
          | some st =>
            match expandStart env st.1 n with
            | some st2 => (st2.1, st.2 ++ st2.2, some (Phase.swapping s.active.toNat n))
            | none => (st.1, st.2, some (Phase.stuck [Pending.collapseTimer s.active.toNat]))
          | none =>
            match expandStart env s1 n with
            | some st => (st.1, st.2, some (Phase.stuck [Pending.expandTimer n]))
            | none => (s1, [], some (Phase.stuck []))

/-- The rest of an accepted `togglePanel`: the timer callbacks (two timers of a
swap fire in delay order, ties by registration order, collapse first), the
`_active` update and the release of `_isTransitioning`.  In the `stuck` phase
the surviving timers fire but `togglePanel` has already rejected: neither
`_active` nor `_isTransitioning` is ever written. -/
def toggleFinish (env : Env) (s : AccState) : Phase → AccState × List Act
  | Phase.collapsing i =>
    let s2 := (collapseDone env s i).1
    let s3 := if s2.config.allowMultiple = false then { s2 with active := -1 } else s2
    ({ s3 with isTransitioning := false }, (collapseDone env s i).2)
  | Phase.expanding i =>
    let s2 := (expandDone env s i).1
    let s3 := if s2.config.allowMultiple = false then { s2 with active := (i : Int) } else s2
    ({ s3 with isTransitioning := false }, (expandDone env s i).2)
  | Phase.swapping j i =>
    if env.transitionMs j ≤ env.transitionMs i then
      let s2 := (collapseDone env s j).1
      let s3 := (expandDone env s2 i).1
      ({ s3 with active := (i : Int), isTransitioning := false },
        (collapseDone env s j).2 ++ (expandDone env s2 i).2)
    else
      let s2 := (expandDone env s i).1
      let s3 := (collapseDone env s2 j).1
      ({ s3 with active := (i : Int), isTransitioning := false },
        (expandDone env s i).2 ++ (collapseDone env s2 j).2)
  | Phase.stuck rest => runPending env s rest

/-- A complete run of `togglePanel(i)`: the synchronous part followed by every
callback it leaves behind. -/
def togglePanelRun (env : Env) (s : AccState) (i : Int) : AccState × List Act :=
  match toggleStart env s i with
  | (s1, t1, none) => (s1, t1)
  | (s1, t1, some ph) => ((toggleFinish env s1 ph).1, t1 ++ (toggleFinish env s1 ph).2)

/-- Is this action an event dispatch, and of what? -/
def actEvent : Act → Option (EvName × Nat)
  | Act.emit e i => some (e, i)
  | _ => none

/-- The events dispatched in a trace, in order. -/
def eventsOf (t : List Act) : List (EvName × Nat) :=
  t.filterMap actEvent

/-- One child of the root element as seen by the constructor: whether its class
list contains `accordion__group`, and the results of the two `querySelector`
calls (`none` when no descendant matches). -/
structure GroupChild where
  isGroup : Bool
  trigger : Option Trigger
  panel : Option Panel
deriving DecidableEq, Repr

/-- The body of the constructor's `forEach` over `root.children` for the child
at position `ci` in `root.children`.  The accumulator carries the lockstep
`_triggers` / `_panels` arrays built so far plus `_active`.  Note the source
stores the child position `i` of the `forEach`, not the position inside the
arrays. -/
def scanChild (allowMultiple : Bool) (ci : Nat) (c : GroupChild) :
    List (Trigger × Panel) × Int → List (Trigger × Panel) × Int :=
  fun (ps, act) =>
    if c.isGroup = false then (ps, act)
    else
      match c.trigger, c.panel with
      | some trigger, some panel =>
        let isExpanded0 := trigger.ariaExpanded
        let (isExpanded, act1) :=
          if allowMultiple = false ∧ isExpanded0 then
            if act ≠ -1 then (false, act) else (isExpanded0, (ci : Int))
          else (isExpanded0, act)
        (ps ++ [(trigger, { panel with expandedClass := isExpanded })], act1)
      | _, _ => (ps, act)

/-- The constructor's `forEach` over `root.children`, threading the child index. -/
def scanChildren (allowMultiple : Bool) :
    Nat → List GroupChild → List (Trigger × Panel) × Int →
    List (Trigger × Panel) × Int
  | _, [], acc => acc
  | ci, c :: rest, acc =>
    scanChildren allowMultiple (ci + 1) rest (scanChild allowMultiple ci c acc)

/-- The `Accordion` constructor: `_getConfig`, the scan of `root.children`,
the early return on an empty group, and the `!allowToggle` fixup that force
expands index 0 when nothing was flagged expanded. -/
def accordionInit (options : AccOptions) (dataset : AccDataset)
    (children : List GroupChild) : AccState :=
  let config := getConfig options dataset
  let (ps, act) := scanChildren config.allowMultiple 0 children ([], -1)
  if ps.length = 0 then
    { config := config, pairs := ps, active := act, isTransitioning := false }
  else if config.allowToggle = false ∧ act = -1 then
    { config := config,
      pairs := listUpdate ps 0
        (fun pr => ({ pr.1 with ariaExpanded := true },
          { pr.2 with expandedClass := true })),
      active := 0, isTransitioning := false }
  else
    { config := config, pairs := ps, active := act, isTransitioning := false }

/-! Concrete fixtures used by the claim theorems and witnesses. -/

/-- A sample environment: every panel measures 100px and animates for 200ms. -/
def envA : Env := ⟨fun _ => 100, fun _ => 200⟩

/-- A valid group whose trigger is flagged expanded. -/
def childExpanded : GroupChild := ⟨true, some ⟨true, false⟩, some ⟨false, none⟩⟩

/-- A valid group whose trigger is flagged collapsed. -/
def childCollapsed : GroupChild := ⟨true, some ⟨false, false⟩, some ⟨false, none⟩⟩

/-- A valid group whose trigger is flagged expanded and disabled. -/
def childExpandedDisabled : GroupChild := ⟨true, some ⟨true, true⟩, some ⟨false, none⟩⟩

/-- A valid group flagged expanded whose panel already carries the expanded class. -/
def childExpandedClassed : GroupChild := ⟨true, some ⟨true, false⟩, some ⟨true, none⟩⟩

/-- A group element in which `querySelector` finds no trigger. -/
def childMissingTrigger : GroupChild := ⟨true, none, some ⟨false, none⟩⟩

/-- Scenario A of the spec: `{allowToggle:true, allowMultiple:false}`, three
panels, panel 0 initially expanded. -/
def stateScenarioA : AccState :=
  accordionInit ⟨true, false⟩ ⟨false, false⟩
    [childExpanded, childCollapsed, childCollapsed]

/-- Scenario B of the spec: `{allowToggle:false}`, three panels, panel 0
initially expanded. -/
def stateScenarioB : AccState :=
  accordionInit ⟨false, false⟩ ⟨false, false⟩
    [childExpanded, childCollapsed, childCollapsed]

/-- Scenario D of the spec in exclusive-swap mode: `{allowToggle:false}`,
panel 0 initially expanded and disabled. -/
def stateScenarioD : AccState :=
  accordionInit ⟨false, false⟩ ⟨false, false⟩
    [childExpandedDisabled, childCollapsed]

/-- Malformed markup for the constructor scan: the first child is a group with
no trigger inside, the second a valid group flagged expanded. -/
def stateScenarioF : AccState :=
  accordionInit ⟨true, false⟩ ⟨false, false⟩
    [childMissingTrigger, childExpanded]

/-- Malformed markup with two groups flagged expanded under
`allowMultiple == false`: the second one is normalized during construction. -/
def stateScenarioN : AccState :=
  accordionInit ⟨true, false⟩ ⟨false, false⟩
    [childExpanded, childExpandedClassed]

/-- A one-panel accordion with its panel expanded, `{allowToggle:true}`. -/
def stateOnePanel : AccState :=
  accordionInit ⟨true, false⟩ ⟨false, false⟩ [childExpanded]

/-- The state of `stateOnePanel` at the suspension point of `togglePanel(0)`:
the transition lock is held and the collapse animation has started. -/
def stateOnePanelMid : AccState :=
  { config := ⟨true, false⟩, pairs := [(⟨false, false⟩, ⟨true, some 0⟩)],
    active := 0, isTransitioning := true }

/-- The trace of the synchronous part of `togglePanel(0)` on `stateOnePanel`. -/
def traceOnePanelMid : List Act :=
  [Act.setAria 0 false, Act.measureHeight 0 100, Act.setHeightPx 0 100,
    Act.reflow 0, Act.readDuration 0 200, Act.setHeightZero 0,
    Act.emit EvName.beforeCollapse 0]

/-- The malformed-markup state that reaches the swap branch with `_active`
out of the arrays: `{allowToggle:false}`, one skipped child before the only
(expanded) pair, so `_active == 1` while the arrays have length 1.  A toggle
of index 0 is accepted, `_collapsePanel(1)` throws, and the lock is never
released. -/
def stateStuck : AccState :=
  accordionInit ⟨false, false⟩ ⟨false, false⟩
    [childMissingTrigger, childExpanded]

/-! Helper lemmas about the embedding. -/

theorem listUpdate_length {α : Type} (l : List α) (i : Nat) (f : α → α) :
    (listUpdate l i f).length = l.length := by
  unfold listUpdate
  split <;> simp

theorem getElem?_listUpdate_self {α : Type} (l : List α) (i : Nat) (f : α → α) :
    (listUpdate l i f)[i]? = (l[i]?).map f := by
  unfold listUpdate
  split
  case _ a h =>
    rw [List.getElem?_set_self']
    rw [h]
    rfl
  case _ h =>
    rw [h]
    rfl

theorem getElem?_listUpdate_ne {α : Type} (l : List α) (i j : Nat) (f : α → α)
    (h : i ≠ j) : (listUpdate l i f)[j]? = l[j]? := by
  unfold listUpdate
  split
  case _ a _ => exact List.getElem?_set_ne h
  case _ _ => rfl

theorem triggers_getElem? (s : AccState) (i : Nat) :
    s.triggers[i]? = (s.pairs[i]?).map Prod.fst := by
  unfold AccState.triggers
  rw [List.getElem?_map]

theorem panels_getElem? (s : AccState) (i : Nat) :
    s.panels[i]? = (s.pairs[i]?).map Prod.snd := by
  unfold AccState.panels
  rw [List.getElem?_map]

theorem panels_length (s : AccState) : s.panels.length = s.pairs.length := by
  unfold AccState.panels
  rw [List.length_map]

theorem collapseStart_present (env : Env) (s : AccState) (i : Nat)
    (pr : Trigger × Panel) (h : s.pairs[i]? = some pr) :
    collapseStart env s i = some (collapseEff env s i, collapseTrace env i) := by
  unfold collapseStart
  rw [h]

theorem expandStart_present (env : Env) (s : AccState) (i : Nat)
    (pr : Trigger × Panel) (h : s.pairs[i]? = some pr) :
    expandStart env s i = some (expandEff env s i, expandTrace env i) := by
  unfold expandStart
  rw [h]

theorem collapseStart_some_eq (env : Env) (s : AccState) (i : Nat)
    (st : AccState × List Act) (h : collapseStart env s i = some st) :
    st = (collapseEff env s i, collapseTrace env i) := by
  unfold collapseStart at h
  split at h
  · cases h
  · cases h
    rfl

theorem expandStart_some_eq (env : Env) (s : AccState) (i : Nat)
    (st : AccState × List Act) (h : expandStart env s i = some st) :
    st = (expandEff env s i, expandTrace env i) := by
  unfold expandStart at h
  split at h
  · cases h
  · cases h
    rfl

theorem config_runPending (env : Env) (rest : List Pending) :
    ∀ s : AccState, (runPending env s rest).1.config = s.config := by
  induction rest with
  | nil => intro s; rfl
  | cons p r ih =>
    intro s
    cases p
    case collapseTimer i => exact ih ((collapseDone env s i).1)
    case expandTimer i => exact ih ((expandDone env s i).1)

theorem isTransitioning_runPending (env : Env) (rest : List Pending) :
    ∀ s : AccState, (runPending env s rest).1.isTransitioning = s.isTransitioning := by
  induction rest with
  | nil => intro s; rfl
  | cons p r ih =>
    intro s
    cases p
    case collapseTimer i => exact ih ((collapseDone env s i).1)
    case expandTimer i => exact ih ((expandDone env s i).1)

theorem config_toggleStart (env : Env) (s : AccState) (i : Int) :
    (toggleStart env s i).1.config = s.config := by
  unfold toggleStart
  dsimp only
  split
  · rfl
  split
  · rfl
  split
  · rfl
  rcases hp : s.pairs[i.toNat]? with _ | pr
  · rfl
  dsimp only
  split
  · rfl
  split
  · split
    · rw [collapseStart_present env { s with isTransitioning := true } i.toNat pr hp]
      rfl
    · rw [expandStart_present env { s with isTransitioning := true } i.toNat pr hp]
      rfl
  · by_cases hneg : s.active < 0
    · rw [if_pos hneg]
      dsimp only
      rw [expandStart_present env { s with isTransitioning := true } i.toNat pr hp]
      rfl
    · rw [if_neg hneg]
      rcases hc : collapseStart env { s with isTransitioning := true } s.active.toNat
        with _ | st
      · dsimp only
        rw [expandStart_present env { s with isTransitioning := true } i.toNat pr hp]
        rfl
      · dsimp only
        have hst := collapseStart_some_eq env _ _ st hc
        rcases he : expandStart env st.1 i.toNat with _ | st2
        · dsimp only
          rw [hst]
          rfl
        · dsimp only
          have hst2 := expandStart_some_eq env _ _ st2 he
          rw [hst2]
          rw [hst]
          rfl

theorem config_toggleFinish (env : Env) (s : AccState) (p : Phase) :
    (toggleFinish env s p).1.config = s.config := by
  cases p
  case collapsing i =>
    unfold toggleFinish
    dsimp only
    split <;> rfl
  case expanding i =>
    unfold toggleFinish
    dsimp only
    split <;> rfl
  case swapping j i =>
    unfold toggleFinish
    dsimp only
    split <;> rfl
  case stuck rest => exact config_runPending env rest s

theorem config_togglePanelRun (env : Env) (s : AccState) (i : Int) :
    (togglePanelRun env s i).1.config = s.config := by
  have h1 := config_toggleStart env s i
  unfold togglePanelRun
  rcases h : toggleStart env s i with ⟨s1, t1, ph⟩
  rw [h] at h1
  cases ph
  · simpa using h1
  case some p =>
    have h2 := config_toggleFinish env s1 p
    simp only [h2]
    simpa using h1

theorem isTransitioning_toggleFinish_notStuck (env : Env) (s : AccState) (p : Phase)
    (h : ∀ rest, p ≠ Phase.stuck rest) :
    (toggleFinish env s p).1.isTransitioning = false := by
  cases p
  case collapsing i => rfl
  case expanding i => rfl
  case swapping j i =>
    unfold toggleFinish
    dsimp only
    split <;> rfl
  case stuck rest => exact absurd rfl (h rest)

theorem isTransitioning_toggleFinish_stuck (env : Env) (s : AccState)
    (rest : List Pending) :
    (toggleFinish env s (Phase.stuck rest)).1.isTransitioning = s.isTransitioning :=
  isTransitioning_runPending env rest s

theorem toggleStart_none_or_locked (env : Env) (s : AccState) (i : Int) :
    (toggleStart env s i).2.2 = none ∨ (toggleStart env s i).1.isTransitioning = true := by
  unfold toggleStart
  dsimp only
  split
  · exact Or.inl rfl
  split
  · exact Or.inl rfl
  split
  · exact Or.inl rfl
  rcases hp : s.pairs[i.toNat]? with _ | pr
  · exact Or.inl rfl
  dsimp only
  split
  · exact Or.inl rfl
  split
  · split
    · rw [collapseStart_present env { s with isTransitioning := true } i.toNat pr hp]
      exact Or.inr rfl
    · rw [expandStart_present env { s with isTransitioning := true } i.toNat pr hp]
      exact Or.inr rfl
  · by_cases hneg : s.active < 0
    · rw [if_pos hneg]
      dsimp only
      rw [expandStart_present env { s with isTransitioning := true } i.toNat pr hp]
      exact Or.inr rfl
    · rw [if_neg hneg]
      rcases hc : collapseStart env { s with isTransitioning := true } s.active.toNat
        with _ | st
      · dsimp only
        rw [expandStart_present env { s with isTransitioning := true } i.toNat pr hp]
        exact Or.inr rfl
      · dsimp only
        have hst := collapseStart_some_eq env _ _ st hc
        rcases he : expandStart env st.1 i.toNat with _ | st2
        · dsimp only
          rw [hst]
          exact Or.inr rfl
        · dsimp only
          have hst2 := expandStart_some_eq env _ _ st2 he
          rw [hst2]
          rw [hst]
          exact Or.inr rfl

theorem toggleStart_out_of_range (env : Env) (s : AccState) (i : Int)
    (h : i < 0 ∨ (s.panels.length : Int) ≤ i) :
    toggleStart env s i = (s, [], none) := by
  unfold toggleStart
  rw [if_pos h]

theorem toggleStart_transitioning (env : Env) (s : AccState) (i : Int)
    (h : s.isTransitioning = true) :
    toggleStart env s i = (s, [], none) := by
  unfold toggleStart
  split
  · rfl
  · simp [h]

theorem toggleStart_alwaysOpen (env : Env) (s : AccState) (i : Int)
    (h : s.config.allowToggle = false ∧ s.active = i) :
    toggleStart env s i = (s, [], none) := by
  unfold toggleStart
  split
  · rfl
  split
  · rfl
  simp [h.1, h.2]

theorem toggleStart_disabled (env : Env) (s : AccState) (i : Int)
    (pr : Trigger × Panel)
    (hget : s.pairs[i.toNat]? = some pr)
    (h : (pr.1.ariaExpanded && pr.1.ariaDisabled) = true) :
    toggleStart env s i = (s, [], none) := by
  unfold toggleStart
  split
  · rfl
  split
  · rfl
  split
  · rfl
  dsimp only
  rw [hget]
  dsimp only
  rw [if_pos h]

theorem togglePanelRun_rejected (env : Env) (s : AccState) (i : Int)
    (h : toggleStart env s i = (s, [], none)) :
    togglePanelRun env s i = (s, []) := by
  unfold togglePanelRun
  rw [h]

theorem scanChild_invalid (am : Bool) (ci : Nat) (c : GroupChild)
    (acc : List (Trigger × Panel) × Int)
    (h : (!c.isGroup || c.trigger.isNone || c.panel.isNone) = true) :
    scanChild am ci c acc = acc := by
  obtain ⟨ps, act⟩ := acc
  unfold scanChild
  dsimp only
  rcases hg : c.isGroup with _ | _
  · simp [hg]
  · rw [hg] at h
    simp only [Bool.not_true, Bool.false_or, Bool.or_eq_true, Option.isNone_iff_eq_none] at h
    rw [if_neg (by simp [hg])]
    rcases h with h | h
    · rw [h]
    · rw [h]
      cases c.trigger <;> rfl

theorem scanChildren_invalid (am : Bool) (children : List GroupChild)
    (h : (children.all fun c => !c.isGroup || c.trigger.isNone || c.panel.isNone) = true) :
    ∀ ci acc, scanChildren am ci children acc = acc := by
  induction children with
  | nil => intro ci acc; rfl
  | cons c rest ih =>
    rw [List.all_cons, Bool.and_eq_true] at h
    intro ci acc
    unfold scanChildren
    rw [scanChild_invalid am ci c acc h.1]
    exact ih h.2 (ci + 1) acc

theorem toggleStart_collapsePath (env : Env) (s : AccState) (i : Nat)
    (pr : Trigger × Panel)
    (hget : s.pairs[i]? = some pr)
    (hexp : pr.1.ariaExpanded = true)
    (hdis : pr.1.ariaDisabled = false)
    (hlen : i < s.panels.length)
    (htrans : s.isTransitioning = false)
    (htog : s.config.allowToggle = true) :
    toggleStart env s (i : Int) =
      (collapseEff env { s with isTransitioning := true } i,
        collapseTrace env i, some (Phase.collapsing i)) := by
  unfold toggleStart
  rw [if_neg (by omega)]
  rw [if_neg (by simp [htrans])]
  rw [if_neg (by simp [htog])]
  dsimp only
  rw [Int.toNat_natCast, hget]
  dsimp only
  rw [if_neg (by simp [hexp, hdis])]
  rw [if_pos htog, if_pos hexp]
  rw [collapseStart_present env { s with isTransitioning := true } i pr hget]

theorem toggleStart_expandPath (env : Env) (s : AccState) (i : Nat)
    (pr : Trigger × Panel)
    (hget : s.pairs[i]? = some pr)
    (hexp : pr.1.ariaExpanded = false)
    (hlen : i < s.panels.length)
    (htrans : s.isTransitioning = false)
    (htog : s.config.allowToggle = true) :
    toggleStart env s (i : Int) =
      (expandEff env { s with isTransitioning := true } i,
        expandTrace env i, some (Phase.expanding i)) := by
  unfold toggleStart
  rw [if_neg (by omega)]
  rw [if_neg (by simp [htrans])]
  rw [if_neg (by simp [htog])]
  dsimp only
  rw [Int.toNat_natCast, hget]
  dsimp only
  rw [if_neg (by simp [hexp])]
  rw [if_pos htog, if_neg (by simp [hexp])]
  rw [expandStart_present env { s with isTransitioning := true } i pr hget]

theorem pairs_collapseEff_ne (env : Env) (s : AccState) (j i : Nat) (h : j ≠ i) :
    (collapseEff env s j).pairs[i]? = s.pairs[i]? := by
  simp only [collapseEff, writeAria, writeStyleHeight]
  rw [getElem?_listUpdate_ne _ _ _ _ h, getElem?_listUpdate_ne _ _ _ _ h,
    getElem?_listUpdate_ne _ _ _ _ h]

theorem toggleStart_swapPath (env : Env) (s : AccState) (i j : Nat)
    (pr prj : Trigger × Panel)
    (hget : s.pairs[i]? = some pr)
    (hnd : (pr.1.ariaExpanded && pr.1.ariaDisabled) = false)
    (hjget : s.pairs[j]? = some prj)
    (hlen : i < s.panels.length)
    (htrans : s.isTransitioning = false)
    (htog : s.config.allowToggle = false)
    (hact : s.active = (j : Int))
    (hne : j ≠ i) :
    toggleStart env s (i : Int) =
      (expandEff env (collapseEff env { s with isTransitioning := true } j) i,
        collapseTrace env j ++ expandTrace env i,
        some (Phase.swapping j i)) := by
  unfold toggleStart
  rw [if_neg (by omega)]
  rw [if_neg (by simp [htrans])]
  rw [if_neg (by rintro ⟨-, hcontra⟩; rw [hact] at hcontra; exact hne (by exact_mod_cast hcontra))]
  dsimp only
  rw [Int.toNat_natCast, hget]
  dsimp only
  rw [if_neg (by simp [hnd])]
  rw [if_neg (by simp [htog])]
  have hj : s.active.toNat = j := by
    rw [hact]
    exact Int.toNat_natCast j
  rw [if_neg (show ¬s.active < 0 by omega)]
  rw [hj]
  rw [collapseStart_present env { s with isTransitioning := true } j prj hjget]
  dsimp only
  rw [expandStart_present env (collapseEff env { s with isTransitioning := true } j) i pr
    (by rw [pairs_collapseEff_ne env _ j i hne]; exact hget)]

theorem triggers_some_pair (s : AccState) (i : Nat) (tr : Trigger)
    (h : s.triggers[i]? = some tr) :
    ∃ pn, s.pairs[i]? = some (tr, pn) := by
  rw [triggers_getElem?] at h
  rcases hp : s.pairs[i]? with _ | pr
  · rw [hp] at h
    cases h
  · rw [hp] at h
    have h2 : pr.1 = tr := by simpa using h
    exact ⟨pr.2, by rw [← h2]⟩

/-- C1: with config `{allowToggle:true, allowMultiple:false}` and panel 0 the only
expanded panel, the claim says `toggle(1)` first collapses panel 0 and then expands
panel 1, emitting before-collapse{0}, collapse{0}, before-expand{1}, expand{1}, and
ends with panel 0 collapsed.  The code's `allowToggle` branch never collapses the
previously active panel: the completed run emits only before-expand{1} and
expand{1} and leaves panel 0 expanded alongside panel 1, with `activeIndex == 1`. -/
theorem C1_code_eval :
    stateScenarioA.config = ⟨true, false⟩
    ∧ stateScenarioA.panels.map Panel.expandedClass = [true, false, false]
    ∧ stateScenarioA.active = 0
    ∧ eventsOf (togglePanelRun envA stateScenarioA 1).2 =
        [(EvName.beforeExpand, 1), (EvName.expand, 1)]
    ∧ (togglePanelRun envA stateScenarioA 1).1.panels.map Panel.expandedClass =
        [true, true, false]
    ∧ (togglePanelRun envA stateScenarioA 1).1.triggers.map Trigger.ariaExpanded =
        [true, true, false]
    ∧ (togglePanelRun envA stateScenarioA 1).1.active = 1
    ∧ (togglePanelRun envA stateScenarioA 1).1.isTransitioning = false := by
  decide

/-- C2: the claim says that with `allowMultiple == false`, at every quiescent point
at most one panel is expanded and the expanded panel equals `activeIndex`.  The code
violates this: after the completed `toggle(1)` on Scenario A the controller is
quiescent (`isTransitioning == false`, `allowMultiple == false`) yet two panels
carry the expanded class, and the panel at index 0 is expanded while
`activeIndex == 1`. -/
theorem C2_code_eval :
    stateScenarioA.config.allowMultiple = false
    ∧ (togglePanelRun envA stateScenarioA 1).1.isTransitioning = false
    ∧ ((togglePanelRun envA stateScenarioA 1).1.panels.filter
        Panel.expandedClass).length = 2
    ∧ ((togglePanelRun envA stateScenarioA 1).1.panels[0]?).map Panel.expandedClass =
        some true
    ∧ (togglePanelRun envA stateScenarioA 1).1.active = 1 := by
  decide

/-- C3: `isTransitioning` is true from the moment a toggle request is accepted;
any toggle call made while it is true is rejected with no state change and no
events, so an interleaved second call leaves exactly the first request's state
changes and trace; the flag is released exactly when every animation of the
request has completed (the end of `toggleFinish` for the normal phases).  When
an executor of the request threw (the `stuck` phase, reachable through the
out-of-range `_active` left by the constructor defect), the request's
animations never all complete and the flag stays true forever — shown
concretely by the `stateStuck` run, after which every further toggle is
rejected. -/
theorem C3_transition_lock (env : Env) (s s1 : AccState) (a b : Int)
    (t1 : List Act) (p : Phase)
    (hstart : toggleStart env s a = (s1, t1, some p)) :
    s1.isTransitioning = true
    ∧ toggleStart env s1 b = (s1, [], none)
    ∧ ((∀ rest, p ≠ Phase.stuck rest) →
        (toggleFinish env s1 p).1.isTransitioning = false)
    ∧ (∀ rest, p = Phase.stuck rest →
        (toggleFinish env s1 p).1.isTransitioning = true)
    ∧ togglePanelRun env s a =
        ((toggleFinish env s1 p).1, t1 ++ (toggleFinish env s1 p).2)
    ∧ (togglePanelRun envA stateStuck 0).1.isTransitioning = true
    ∧ toggleStart envA (togglePanelRun envA stateStuck 0).1 1 =
        ((togglePanelRun envA stateStuck 0).1, [], none) := by
  have hT : s1.isTransitioning = true := by
    rcases toggleStart_none_or_locked env s a with h | h
    · rw [hstart] at h
      simp at h
    · rw [hstart] at h
      exact h
  refine ⟨hT, toggleStart_transitioning env s1 b hT, ?_, ?_, ?_, by decide, by decide⟩
  · intro h
    exact isTransitioning_toggleFinish_notStuck env s1 p h
  · intro rest h
    subst h
    exact (isTransitioning_toggleFinish_stuck env s1 rest).trans hT
  · unfold togglePanelRun
    rw [hstart]

/-- Witness for C3 at a concrete accepted collapse: the one-panel accordion. -/
theorem C3_transition_lock_witness :
    stateOnePanelMid.isTransitioning = true
    ∧ toggleStart envA stateOnePanelMid 1 = (stateOnePanelMid, [], none)
    ∧ ((∀ rest, Phase.collapsing 0 ≠ Phase.stuck rest) →
        (toggleFinish envA stateOnePanelMid (Phase.collapsing 0)).1.isTransitioning = false)
    ∧ (∀ rest, Phase.collapsing 0 = Phase.stuck rest →
        (toggleFinish envA stateOnePanelMid (Phase.collapsing 0)).1.isTransitioning = true)
    ∧ togglePanelRun envA stateOnePanel 0 =
        ((toggleFinish envA stateOnePanelMid (Phase.collapsing 0)).1,
          traceOnePanelMid ++ (toggleFinish envA stateOnePanelMid (Phase.collapsing 0)).2)
    ∧ (togglePanelRun envA stateStuck 0).1.isTransitioning = true
    ∧ toggleStart envA (togglePanelRun envA stateStuck 0).1 1 =
        ((togglePanelRun envA stateStuck 0).1, [], none) :=
  C3_transition_lock envA stateOnePanel stateOnePanelMid 0 1 traceOnePanelMid
    (Phase.collapsing 0) (by decide)

/-- C4 counterexample: the claim orders each collapse as "emit before-collapse,
then begin animating height toward zero" (and analogously for expand).  In the
code the target height is written before the event is dispatched: in the trace of
a completed collapse the height-to-zero write precedes the before-collapse emit,
and in a completed expand the target-height write precedes the before-expand
emit. -/
theorem C4_counterexample :
    Act.setHeightZero 0 ∈ (togglePanelRun envA stateOnePanel 0).2
    ∧ Act.emit EvName.beforeCollapse 0 ∈ (togglePanelRun envA stateOnePanel 0).2
    ∧ ¬ ((togglePanelRun envA stateOnePanel 0).2.indexOf
          (Act.emit EvName.beforeCollapse 0) <
        (togglePanelRun envA stateOnePanel 0).2.indexOf (Act.setHeightZero 0))
    ∧ Act.setHeightPx 1 100 ∈ (togglePanelRun envA stateScenarioA 1).2
    ∧ Act.emit EvName.beforeExpand 1 ∈ (togglePanelRun envA stateScenarioA 1).2
    ∧ ¬ ((togglePanelRun envA stateScenarioA 1).2.indexOf
          (Act.emit EvName.beforeExpand 1) <
        (togglePanelRun envA stateScenarioA 1).2.indexOf (Act.setHeightPx 1 100)) := by
  decide

/-- C4 amended: an accepted toggle in `allowToggle` mode performs, in exact
program order: set the trigger's accessibility flag; measure and pin the starting
height; force a layout flush; read the transition duration; write the animation's
target height (zero for collapse, the measured height for expand); only then emit
the before-notification; and after the timer fires, clear the height override,
for collapse remove the expanded class, emit the completion notification, and
resolve. -/
theorem C4_amended_order (env : Env) (s : AccState) (i : Nat) (tr : Trigger)
    (hget : s.triggers[i]? = some tr)
    (hnd : (tr.ariaExpanded && tr.ariaDisabled) = false)
    (hlen : i < s.panels.length)
    (htrans : s.isTransitioning = false)
    (htog : s.config.allowToggle = true) :
    (tr.ariaExpanded = true →
      (togglePanelRun env s (i : Int)).2 =
        [Act.setAria i false, Act.measureHeight i (env.renderedHeight i),
          Act.setHeightPx i (env.renderedHeight i), Act.reflow i,
          Act.readDuration i (env.transitionMs i), Act.setHeightZero i,
          Act.emit EvName.beforeCollapse i, Act.timer i (env.transitionMs i),
          Act.clearHeight i, Act.removeExpandedClass i, Act.emit EvName.collapse i,
          Act.resolve i])
    ∧ (tr.ariaExpanded = false →
      (togglePanelRun env s (i : Int)).2 =
        [Act.setAria i true, Act.addExpandedClass i,
          Act.measureHeight i (env.renderedHeight i), Act.setHeightZero i,
          Act.reflow i, Act.readDuration i (env.transitionMs i),
          Act.setHeightPx i (env.renderedHeight i), Act.emit EvName.beforeExpand i,
          Act.timer i (env.transitionMs i), Act.clearHeight i,
          Act.emit EvName.expand i, Act.resolve i]) := by
  obtain ⟨pn, hp⟩ := triggers_some_pair s i tr hget
  constructor
  · intro hexp
    have hdis : tr.ariaDisabled = false := by
      cases hd : tr.ariaDisabled
      · rfl
      · rw [hexp, hd] at hnd
        exact absurd hnd (by simp)
    unfold togglePanelRun
    rw [toggleStart_collapsePath env s i (tr, pn) hp hexp hdis hlen htrans htog]
    dsimp only
    simp [collapseTrace, collapseDone, toggleFinish]
  · intro hexp
    unfold togglePanelRun
    rw [toggleStart_expandPath env s i (tr, pn) hp hexp hlen htrans htog]
    dsimp only
    simp [expandTrace, expandDone, toggleFinish]

/-- Witness for C4 amended: the collapse of the expanded panel 0 of Scenario A. -/
theorem C4_amended_order_witness :
    ((true : Bool) = true →
      (togglePanelRun envA stateScenarioA 0).2 =
        [Act.setAria 0 false, Act.measureHeight 0 100, Act.setHeightPx 0 100,
          Act.reflow 0, Act.readDuration 0 200, Act.setHeightZero 0,
          Act.emit EvName.beforeCollapse 0, Act.timer 0 200, Act.clearHeight 0,
          Act.removeExpandedClass 0, Act.emit EvName.collapse 0, Act.resolve 0])
    ∧ ((true : Bool) = false →
      (togglePanelRun envA stateScenarioA 0).2 =
        [Act.setAria 0 true, Act.addExpandedClass 0, Act.measureHeight 0 100,
          Act.setHeightZero 0, Act.reflow 0, Act.readDuration 0 200,
          Act.setHeightPx 0 100, Act.emit EvName.beforeExpand 0,
          Act.timer 0 200, Act.clearHeight 0, Act.emit EvName.expand 0,
          Act.resolve 0]) :=
  C4_amended_order envA stateScenarioA 0 ⟨true, false⟩ (by decide) (by decide)
    (by decide) (by decide) (by decide)

/-- C5 counterexample: the claim says no toggle in any mode collapses a disabled
expanded panel.  In exclusive-swap mode (`allowToggle == false`) with panel 0
expanded and disabled, the accepted `toggle(1)` collapses panel 0 anyway. -/
theorem C5_counterexample :
    stateScenarioD.config.allowToggle = false
    ∧ stateScenarioD.triggers.map Trigger.ariaExpanded = [true, false]
    ∧ stateScenarioD.triggers.map Trigger.ariaDisabled = [true, false]
    ∧ stateScenarioD.panels.map Panel.expandedClass = [true, false]
    ∧ (togglePanelRun envA stateScenarioD 1).1.panels.map Panel.expandedClass =
        [false, true]
    ∧ (togglePanelRun envA stateScenarioD 1).1.triggers.map Trigger.ariaExpanded =
        [false, true]
    ∧ (EvName.collapse, 0) ∈ eventsOf (togglePanelRun envA stateScenarioD 1).2 := by
  decide

/-- C5 amended: a `toggle` whose target index holds an expanded, disabled trigger
is a silent no-op (the panel stays expanded); the exclusive-swap branch, however,
collapses the active panel regardless of its disabled flag (see the
counterexample). -/
theorem C5_amended_noop (env : Env) (s : AccState) (i : Nat) (tr : Trigger)
    (hget : s.triggers[i]? = some tr)
    (hexp : tr.ariaExpanded = true)
    (hdis : tr.ariaDisabled = true) :
    togglePanelRun env s (i : Int) = (s, []) := by
  obtain ⟨pn, hp⟩ := triggers_some_pair s i tr hget
  exact togglePanelRun_rejected env s (i : Int)
    (toggleStart_disabled env s (i : Int) (tr, pn)
      (by rw [Int.toNat_natCast]; exact hp)
      (by rw [show (tr, pn).1 = tr from rfl, hexp, hdis]; rfl))

/-- Witness for C5 amended: Scenario D, `toggle(0)` on the disabled expanded panel. -/
theorem C5_amended_noop_witness :
    togglePanelRun envA stateScenarioD 0 = (stateScenarioD, []) :=
  C5_amended_noop envA stateScenarioD 0 ⟨true, true⟩ (by decide) (by decide) (by decide)

/-- C6: the claim says the first pair flagged expanded becomes `activeIndex`, equal
to its index in the group.  The constructor stores the `forEach` counter over
`root.children` instead: with a skipped child before the expanded pair, the single
group member (array index 0) is flagged expanded but `_active` is set to 1, an
index the rest of the code would use to address the arrays. -/
theorem C6_code_eval :
    stateScenarioF.triggers.length = 1
    ∧ stateScenarioF.panels.length = 1
    ∧ stateScenarioF.triggers.map Trigger.ariaExpanded = [true]
    ∧ stateScenarioF.panels.map Panel.expandedClass = [true]
    ∧ stateScenarioF.active = 1 := by
  decide

/-- C7: with `allowToggle == false` and `activeIndex == j`, an accepted
`toggle(i)` for `i != j` starts the collapse of `j` and the expand of `i` in the
same tick (both before-notifications precede both completion notifications,
which land in timer order), waits for both, and only then sets
`activeIndex = i` and releases the lock; `toggle(j)` itself is a silent no-op. -/
theorem C7_exclusive_swap (env : Env) (s : AccState) (i j : Nat) (tr : Trigger)
    (hget : s.triggers[i]? = some tr)
    (hnd : (tr.ariaExpanded && tr.ariaDisabled) = false)
    (hilen : i < s.panels.length)
    (hjlen : j < s.panels.length)
    (htrans : s.isTransitioning = false)
    (htog : s.config.allowToggle = false)
    (hact : s.active = (j : Int))
    (hne : j ≠ i) :
    togglePanelRun env s (j : Int) = (s, [])
    ∧ (togglePanelRun env s (i : Int)).1.active = (i : Int)
    ∧ (togglePanelRun env s (i : Int)).1.isTransitioning = false
    ∧ ((togglePanelRun env s (i : Int)).1.panels[j]?).map Panel.expandedClass =
        some false
    ∧ ((togglePanelRun env s (i : Int)).1.panels[i]?).map Panel.expandedClass =
        some true
    ∧ eventsOf (togglePanelRun env s (i : Int)).2 =
        [(EvName.beforeCollapse, j), (EvName.beforeExpand, i)] ++
          (if env.transitionMs j ≤ env.transitionMs i
            then [(EvName.collapse, j), (EvName.expand, i)]
            else [(EvName.expand, i), (EvName.collapse, j)]) := by
  have hne2 : i ≠ j := Ne.symm hne
  obtain ⟨pn, hp⟩ := triggers_some_pair s i tr hget
  have hjp : j < s.pairs.length := by
    rw [← panels_length]
    exact hjlen
  obtain ⟨prj, hprj⟩ : ∃ pr, s.pairs[j]? = some pr :=
    ⟨s.pairs[j], List.getElem?_eq_getElem hjp⟩
  refine ⟨togglePanelRun_rejected env s (j : Int)
    (toggleStart_alwaysOpen env s (j : Int) ⟨htog, hact⟩), ?_⟩
  unfold togglePanelRun
  rw [toggleStart_swapPath env s i j (tr, pn) prj hp hnd hprj hilen htrans htog hact hne]
  dsimp only
  by_cases hd : env.transitionMs j ≤ env.transitionMs i
  all_goals unfold toggleFinish
  all_goals dsimp only
  · rw [if_pos hd]
    refine ⟨rfl, rfl, ?_, ?_, ?_⟩
    · simp [expandDone, collapseDone, expandEff, collapseEff, writeAria,
        writeExpandedClass, writeStyleHeight, panels_getElem?,
        getElem?_listUpdate_self, getElem?_listUpdate_ne, hne, hne2, hprj]
    · simp [expandDone, collapseDone, expandEff, collapseEff, writeAria,
        writeExpandedClass, writeStyleHeight, panels_getElem?,
        getElem?_listUpdate_self, getElem?_listUpdate_ne, hne, hne2, hp]
    · simp [eventsOf, actEvent, collapseTrace, expandTrace, collapseDone,
        expandDone, hd]
  · rw [if_neg hd]
    refine ⟨rfl, rfl, ?_, ?_, ?_⟩
    · simp [expandDone, collapseDone, expandEff, collapseEff, writeAria,
        writeExpandedClass, writeStyleHeight, panels_getElem?,
        getElem?_listUpdate_self, getElem?_listUpdate_ne, hne, hne2, hprj]
    · simp [expandDone, collapseDone, expandEff, collapseEff, writeAria,
        writeExpandedClass, writeStyleHeight, panels_getElem?,
        getElem?_listUpdate_self, getElem?_listUpdate_ne, hne, hne2, hp]
    · simp [eventsOf, actEvent, collapseTrace, expandTrace, collapseDone,
        expandDone, hd]

/-- Witness for C7 at Scenario B: three panels, `allowToggle == false`,
`activeIndex == 0`, `toggle(2)` and `toggle(0)`. -/
theorem C7_exclusive_swap_witness :
    togglePanelRun envA stateScenarioB 0 = (stateScenarioB, [])
    ∧ (togglePanelRun envA stateScenarioB 2).1.active = 2
    ∧ (togglePanelRun envA stateScenarioB 2).1.isTransitioning = false
    ∧ ((togglePanelRun envA stateScenarioB 2).1.panels[0]?).map Panel.expandedClass =
        some false
    ∧ ((togglePanelRun envA stateScenarioB 2).1.panels[2]?).map Panel.expandedClass =
        some true
    ∧ eventsOf (togglePanelRun envA stateScenarioB 2).2 =
        [(EvName.beforeCollapse, 0), (EvName.beforeExpand, 2)] ++
          (if envA.transitionMs 0 ≤ envA.transitionMs 2
            then [(EvName.collapse, 0), (EvName.expand, 2)]
            else [(EvName.expand, 2), (EvName.collapse, 0)]) :=
  C7_exclusive_swap envA stateScenarioB 2 0 ⟨false, false⟩ (by decide) (by decide)
    (by decide) (by decide) (by decide) (by decide) (by decide) (by decide)

/-- C8: every rejected toggle request is a silent no-op — out-of-range index,
or the always-open guard (`!allowToggle` with `activeIndex == i`), or an empty
group — and a root whose children are all invalid pairs produces an inert
controller with empty trigger and panel arrays. -/
theorem C8_rejected_noop (env : Env) (s : AccState) (i : Int)
    (options : AccOptions) (dataset : AccDataset) (children : List GroupChild)
    (hrej : i < 0 ∨ (s.panels.length : Int) ≤ i
      ∨ (s.config.allowToggle = false ∧ s.active = i) ∨ s.panels = [])
    (hch : (children.all fun c => !c.isGroup || c.trigger.isNone || c.panel.isNone) = true) :
    togglePanelRun env s i = (s, [])
    ∧ (accordionInit options dataset children).triggers = []
    ∧ (accordionInit options dataset children).panels = [] := by
  refine ⟨?_, ?_⟩
  · apply togglePanelRun_rejected
    rcases hrej with h | h | h | h
    · exact toggleStart_out_of_range env s i (Or.inl h)
    · exact toggleStart_out_of_range env s i (Or.inr h)
    · exact toggleStart_alwaysOpen env s i h
    · apply toggleStart_out_of_range
      rw [h]
      by_cases hi : i < 0
      · exact Or.inl hi
      · exact Or.inr (by simp; omega)
  · unfold accordionInit
    dsimp only
    rw [scanChildren_invalid _ children hch 0 ([], -1)]
    constructor <;> rfl

/-- Witness for C8: `toggle(-1)` on Scenario A, and a root with one trigger-less
group child. -/
theorem C8_rejected_noop_witness :
    togglePanelRun envA stateScenarioA (-1) = (stateScenarioA, [])
    ∧ (accordionInit ⟨true, false⟩ ⟨false, false⟩ [childMissingTrigger]).triggers = []
    ∧ (accordionInit ⟨true, false⟩ ⟨false, false⟩ [childMissingTrigger]).panels = [] :=
  C8_rejected_noop envA stateScenarioA (-1) ⟨true, false⟩ ⟨false, false⟩
    [childMissingTrigger] (Or.inl (by decide)) (by decide)

/-- C9: `togglePanel` branches on the trigger's `aria-expanded` attribute alone:
whenever the target trigger reads expanded (and is enabled) in `allowToggle` mode,
the run emits the collapse pair of events, whatever the panel's class says.  The
constructor's `!allowMultiple` normalization produces exactly such a state: it
removes the later conflicting panel's expanded class but leaves that trigger's
attribute as `true`, so `toggle(1)` after construction follows the collapse path
on an already visually collapsed panel. -/
theorem C9_aria_decides_path (env : Env) (s : AccState) (i : Nat) (tr : Trigger)
    (hget : s.triggers[i]? = some tr)
    (hexp : tr.ariaExpanded = true)
    (hdis : tr.ariaDisabled = false)
    (hlen : i < s.panels.length)
    (htrans : s.isTransitioning = false)
    (htog : s.config.allowToggle = true) :
    eventsOf (togglePanelRun env s (i : Int)).2 =
      [(EvName.beforeCollapse, i), (EvName.collapse, i)]
    ∧ stateScenarioN.triggers.map Trigger.ariaExpanded = [true, true]
    ∧ stateScenarioN.panels.map Panel.expandedClass = [true, false]
    ∧ eventsOf (togglePanelRun envA stateScenarioN 1).2 =
        [(EvName.beforeCollapse, 1), (EvName.collapse, 1)] := by
  refine ⟨?_, by decide, by decide, by decide⟩
  obtain ⟨pn, hp⟩ := triggers_some_pair s i tr hget
  unfold togglePanelRun
  rw [toggleStart_collapsePath env s i (tr, pn) hp hexp hdis hlen htrans htog]
  dsimp only
  simp [eventsOf, actEvent, collapseTrace, collapseDone, toggleFinish]

/-- Witness for C9: the normalized second pair of the two-expanded-groups markup. -/
theorem C9_aria_decides_path_witness :
    eventsOf (togglePanelRun envA stateScenarioN 1).2 =
      [(EvName.beforeCollapse, 1), (EvName.collapse, 1)]
    ∧ stateScenarioN.triggers.map Trigger.ariaExpanded = [true, true]
    ∧ stateScenarioN.panels.map Panel.expandedClass = [true, false]
    ∧ eventsOf (togglePanelRun envA stateScenarioN 1).2 =
        [(EvName.beforeCollapse, 1), (EvName.collapse, 1)] :=
  C9_aria_decides_path envA stateScenarioN 1 ⟨true, false⟩ (by decide) (by decide)
    (by decide) (by decide) (by decide) (by decide)

/-- C10: the configuration computed by `_getConfig` satisfies
`allowMultiple → allowToggle` (when `allowToggle` resolves to false,
`allowMultiple` is forced to false whatever the options and dataset request),
it is the configuration the constructor installs, and `togglePanel` never
changes it. -/
theorem C10_config_implication (o : AccOptions) (d : AccDataset)
    (children : List GroupChild) (env : Env) (s : AccState) (i : Int) :
    ((getConfig o d).allowMultiple && !(getConfig o d).allowToggle) = false
    ∧ (accordionInit o d children).config = getConfig o d
    ∧ (togglePanelRun env s i).1.config = s.config := by
  refine ⟨?_, ?_, config_togglePanelRun env s i⟩
  · unfold getConfig
    dsimp only
    cases o.allowToggle <;> cases d.allowToggle <;> simp
  · unfold accordionInit
    dsimp only
    repeat' split
    all_goals rfl

end Accordion
